import Mathlib

/-!
Verification of the conversation controller of the Fuse financial
verification agent (`src/agent/VerificationAgent.js`,
`src/agent/conversationFlow.js`, `src/utils/validators.js`).

The JavaScript source is shallowly embedded: strings are Lean `String`
(kernel-level `List Char`), JavaScript `null`/`undefined` values of a
field are modelled by `Option.none`, and the LLM entity-extraction
collaborator is modelled as an oracle supplied with each input (the
controller only ever consumes its returned field values, so every
possible collaborator behaviour is covered by quantifying over the
oracle).  Prompt templates and formatters are render-only and are not
consulted by any handler decision, so they are omitted from the state.
-/

/-! ## JavaScript string primitives -/

/-- Unicode code point of a character minus the code point of the zero
digit; the numeric value of a decimal digit character. -/
def dval (c : Char) : Nat := c.toNat - 48

/-- Boolean test that `pat` occurs as a contiguous substring of the
second list; embeds `String.prototype.includes`. -/
def hasSubstr (pat : List Char) : List Char → Bool
  | [] => pat.isEmpty
  | c :: t => pat.isPrefixOf (c :: t) || hasSubstr pat t

/-- JavaScript `s.includes(pat)` on strings. -/
def jsIncludes (s pat : String) : Bool := hasSubstr pat.data s.data

/-- JavaScript `s.toLowerCase()` restricted to the basic latin range,
which is all the handlers compare against. -/
def jsToLower (s : String) : String := ⟨s.data.map Char.toLower⟩

/-- JavaScript `s.trim()`: strip whitespace from both ends. -/
def jsTrim (s : String) : String :=
  ⟨((s.data.dropWhile Char.isWhitespace).reverse.dropWhile Char.isWhitespace).reverse⟩

/-- Truthiness of a JavaScript string value: `undefined`/`null` (here
`none`) and the empty string are falsy. -/
def truthyStr : Option String → Bool
  | none => false
  | some s => !s.data.isEmpty

/-- Truthiness of a JavaScript number value: `undefined`/`null`/`NaN`
(here `none`) and `0` are falsy. -/
def truthyNum : Option Int → Bool
  | none => false
  | some v => v != 0

/-- JavaScript `a || b` on two optional numbers (`application_job_tenure
|| job_tenure_months`): the first operand is kept when truthy. -/
def jsOrNum (a b : Option Int) : Option Int :=
  if truthyNum a then a else b

/-- Numeric value of a list of decimal digit characters, most
significant first (the value `parseInt` assigns to a digit string). -/
def natOfDigits (ds : List Char) : Nat :=
  ds.foldl (fun acc c => acc * 10 + dval c) 0

/-- JavaScript `parseInt(s)` (radix 10): skip leading whitespace, an
optional sign, then the longest prefix of decimal digits; `none` models
the `NaN` result when no digit is found. -/
def parseIntJs (s : String) : Option Int :=
  let cs := s.data.dropWhile Char.isWhitespace
  match cs with
  | '-' :: rest =>
    let ds := rest.takeWhile Char.isDigit
    if ds.isEmpty then none else some (-(natOfDigits ds : Int))
  | '+' :: rest =>
    let ds := rest.takeWhile Char.isDigit
    if ds.isEmpty then none else some (natOfDigits ds : Int)
  | _ =>
    let ds := cs.takeWhile Char.isDigit
    if ds.isEmpty then none else some (natOfDigits ds : Int)

/-! ## Calendar dates

`validateDob` compares the parsed date against the evaluation-time
clock (`new Date()`), so the embedding threads an explicit current
date through every function that the source evaluates against the
clock. -/

/-- A calendar date, used both for parsed date-of-birth strings and for
the evaluation-time clock. -/
structure Date3 where
  year : Nat
  month : Nat
  day : Nat
deriving DecidableEq, Repr

/-- Gregorian leap-year rule, as implemented by the JavaScript `Date`
parser that `validateDob` relies on. -/
def isLeap (y : Nat) : Bool :=
  y % 4 == 0 && (y % 100 != 0 || y % 400 == 0)

/-- Number of days of month `m` of year `y`. -/
def daysInMonth (y m : Nat) : Nat :=
  if m == 2 then (if isLeap y then 29 else 28)
  else if m == 4 || m == 6 || m == 9 || m == 11 then 30
  else 31

/-- The date exists in the proleptic Gregorian calendar; this is the
condition under which `new Date` accepts an ISO `YYYY-MM-DD` string. -/
def isRealDate (b : Date3) : Bool :=
  decide (1 ≤ b.month) && decide (b.month ≤ 12) &&
  decide (1 ≤ b.day) && decide (b.day ≤ daysInMonth b.year b.month)

/-- Strict calendar order; `dateAfter b t = true` iff midnight of `b`
lies after any instant of day `t`, which is how `date > new Date()`
compares a parsed ISO date against the clock. -/
def dateAfter (b t : Date3) : Bool :=
  decide (b.year > t.year) ||
  (b.year == t.year && (decide (b.month > t.month) ||
    (b.month == t.month && decide (b.day > t.day))))

/-! ## Validators (`src/utils/validators.js`)

Each validator receives a typed value; the JavaScript `typeof` guards
against non-string/non-number arguments are represented by the `Option`
wrappers at the call sites (`none`, i.e. `null`/`undefined`, is always
rejected). -/

/-- Embeds `validateDob`: `YYYY-MM-DD` shape, a real calendar date, not
in the future, and `new Date().getFullYear() - date.getFullYear()` at
least 18.  The source computes the age as a bare difference of calendar
years. -/
def validateDob (today : Date3) (dob : String) : Bool :=
  match dob.data with
  | [y1, y2, y3, y4, h1, m1, m2, h2, d1, d2] =>
    if y1.isDigit && y2.isDigit && y3.isDigit && y4.isDigit && h1 == '-' &&
       m1.isDigit && m2.isDigit && h2 == '-' && d1.isDigit && d2.isDigit then
      let y := dval y1 * 1000 + dval y2 * 100 + dval y3 * 10 + dval y4
      let m := dval m1 * 10 + dval m2
      let d := dval d1 * 10 + dval d2
      if isRealDate ⟨y, m, d⟩ then
        if dateAfter ⟨y, m, d⟩ today then false
        else decide ((18 : Int) ≤ (today.year : Int) - (y : Int))
      else false
    else false
  | _ => false

/-- Embeds `validateSsnLast4` applied to a string argument: non-empty,
exactly 4 digits after stripping non-digits, and not four copies of one
digit (`/^(\d)\1{3}$/`). -/
def validateSsnLast4 (ssn : String) : Bool :=
  if ssn.data.isEmpty then false
  else
    let cleanSsn := ssn.data.filter Char.isDigit
    if !(cleanSsn.length == 4) then false
    else
      match cleanSsn with
      | [a, b, c, d] => !(a == b && a == c && a == d)
      | _ => true

/-- Embeds `validateSsnLast4` on a possibly-`null`/`undefined`
argument: the leading `!ssn || typeof ssn !== 'string'` guard. -/
def validateSsnLast4Js : Option String → Bool
  | none => false
  | some s => validateSsnLast4 s

/-- Embeds `validateEmail`: the regular expression
`/^[^\s@]+@[^\s@]+\.[^\s@]+$/` — no whitespace, exactly one `@` with a
non-empty local part, and a dot in the interior of the domain part. -/
def validateEmail (email : String) : Bool :=
  let cs := email.data
  let local_ := cs.takeWhile (fun c => c != '@')
  let rest := cs.dropWhile (fun c => c != '@')
  cs.all (fun c => !c.isWhitespace) &&
  !local_.isEmpty &&
  (match rest with
   | '@' :: dom =>
     dom.all (fun c => c != '@') &&
     hasSubstr ['.'] ((dom.drop 1).dropLast)
   | _ => false)

/-- Embeds `validateIncome`: a number strictly above 0 and at most
100000. -/
def validateIncome (income : Int) : Bool :=
  decide (0 < income) && decide (income ≤ 100000)

/-- Embeds `validateTenure` on an actual number: between 0 and 600
months inclusive. -/
def validateTenure (tenure : Int) : Bool :=
  decide (0 ≤ tenure) && decide (tenure ≤ 600)

/-- Embeds `validateTenure` applied to the possibly-`NaN` result of
`parseInt`: both `NaN < 0` and `NaN > 600` are false in JavaScript, so
the source returns `true` on `NaN`. -/
def validateTenureNum : Option Int → Bool
  | none => true
  | some v => validateTenure v

/-- A collected mailing address record. -/
structure Address where
  street : String
  city : String
  state : String
  zip_code : String
deriving DecidableEq, Repr

/-- The ZIP shape `/^\d{5}(-\d{4})?$/` required by `validateAddress`. -/
def zipOk (z : String) : Bool :=
  match z.data with
  | [a, b, c, d, e] => a.isDigit && b.isDigit && c.isDigit && d.isDigit && e.isDigit
  | [a, b, c, d, e, h, f, g, i, j] =>
    a.isDigit && b.isDigit && c.isDigit && d.isDigit && e.isDigit &&
    h == '-' && f.isDigit && g.isDigit && i.isDigit && j.isDigit
  | _ => false

/-- Embeds `validateAddress`: all four components present as non-empty
strings and the ZIP code in 5-digit or 5+4 form. -/
def validateAddress (a : Address) : Bool :=
  !a.street.data.isEmpty && !a.city.data.isEmpty && !a.state.data.isEmpty &&
  !a.zip_code.data.isEmpty && zipOk a.zip_code

/-! ## The Flow Table (`src/agent/conversationFlow.js`)

One record per node; the `prompt` templates are pure render functions
and are not represented (no handler consults them). -/

/-- A node descriptor of the flow table. -/
structure Node where
  id : String
  handler : String
  isTerminal : Bool
  next : Option String
  onSuccess : Option String
  onFailure : Option String
deriving DecidableEq, Repr

/-- The static flow table, node for node as exported by
`conversationFlow.js`. -/
def nodes : List Node := [
  ⟨"START", "handleGreetingConfirmation", false, some "IDENTITY_VERIFICATION_DOB", none, none⟩,
  ⟨"IDENTITY_VERIFICATION_DOB", "handleDobCollection", false, some "IDENTITY_VERIFICATION_SSN", none, none⟩,
  ⟨"IDENTITY_VERIFICATION_SSN", "handleSsnCollection", false, some "IDENTITY_VERIFICATION_CONFIRM", none, none⟩,
  ⟨"IDENTITY_VERIFICATION_CONFIRM", "handleIdentityConfirmation", false, none,
    some "CONTACT_INFO_ADDRESS", some "IDENTITY_VERIFICATION_RETRY"⟩,
  ⟨"IDENTITY_VERIFICATION_RETRY", "handleIdentityRetry", false, some "IDENTITY_VERIFICATION_CONFIRM", none, none⟩,
  ⟨"IDENTITY_FAILURE_TERMINATION", "terminate", true, none, none, none⟩,
  ⟨"CONTACT_INFO_ADDRESS", "handleAddressCollection", false, some "CONTACT_INFO_UNIT", none, none⟩,
  ⟨"CONTACT_INFO_UNIT", "handleUnitCollection", false, some "CONTACT_INFO_EMAIL", none, none⟩,
  ⟨"CONTACT_INFO_EMAIL", "handleEmailCollection", false, some "EMPLOYMENT_INCOME", none, none⟩,
  ⟨"EMPLOYMENT_INCOME", "handleIncomeCollection", false, some "EMPLOYMENT_TENURE", none, none⟩,
  ⟨"EMPLOYMENT_TENURE", "handleTenureCollection", false, some "TENURE_DISCREPANCY_CHECK", none, none⟩,
  ⟨"TENURE_DISCREPANCY_CHECK", "handleTenureDiscrepancy", false, some "FINAL_CONFIRMATION", none, none⟩,
  ⟨"FINAL_CONFIRMATION", "handleFinalConfirmation", false, some "COMPLETION", none, none⟩,
  ⟨"COMPLETION", "complete", true, none, none, none⟩]

/-- Key lookup in the flow table, embedding `nodes[id]` (an absent key
yields `undefined`). -/
def findNode (i : String) : Option Node :=
  nodes.find? (fun n => n.id == i)

/-- The keys of the flow table. -/
def nodeIds : List String := nodes.map (fun n => n.id)

/-- The literal `nodes['IDENTITY_VERIFICATION_CONFIRM'].onSuccess`
lookup performed by `handleIdentityConfirmation`. -/
def confirmOnSuccess : String :=
  ((findNode "IDENTITY_VERIFICATION_CONFIRM").bind (fun n => n.onSuccess)).getD ""

/-- The literal `nodes['IDENTITY_VERIFICATION_CONFIRM'].onFailure`
lookup performed by `handleIdentityConfirmation`. -/
def confirmOnFailure : String :=
  ((findNode "IDENTITY_VERIFICATION_CONFIRM").bind (fun n => n.onFailure)).getD ""

/-! ## Controller state (`VerificationAgent` constructor) -/

/-- The read-only applicant record supplied at session creation.
`none` models an absent (`undefined`) numeric field. -/
structure ApplicantData where
  name : String
  date_of_birth : String
  ssn_last_four : String
  application_job_tenure : Option Int
  job_tenure_months : Option Int
deriving DecidableEq, Repr

/-- Configuration surface of the controller, with the source defaults
`jobTenureThreshold = 24` and `maxIdentityAttempts = 2`. -/
structure Config where
  jobTenureThreshold : Int
  maxIdentityAttempts : Nat
deriving DecidableEq, Repr

/-- `conversationState.collectedData`.  A `none` field is one that is
absent or has been set to `null`; `jobTenure = none` also covers the
`NaN` that `parseInt` can produce, since every consumer of the field
distinguishes values only by JavaScript truthiness, which all three
fail. -/
structure CollectedData where
  dob : Option String
  ssnLast4 : Option String
  address : Option Address
  email : Option String
  noEmail : Bool
  monthlyIncome : Option Int
  jobTenure : Option Int
  employmentStatus : Option String
deriving DecidableEq, Repr

/-- The empty `collectedData` of a fresh session. -/
def CollectedData.empty : CollectedData :=
  ⟨none, none, none, none, false, none, none, none⟩

/-- The decision-relevant part of `conversationState.context`.  The
formatted render strings are recomputed before every prompt and never
read by a handler; the discrepancy bookkeeping below is the only
context state a handler consults or persists. -/
structure Context where
  discrepancyShown : Bool
  hasDiscrepancy : Bool
  applicationTenure : Option Int
  statedTenure : Option Int
deriving DecidableEq, Repr

/-- Fresh context of a new session. -/
def Context.empty : Context := ⟨false, false, none, none⟩

/-- The mutable per-session state of a `VerificationAgent` together
with the `identityVerified` security gate. -/
structure AgentState where
  currentNodeId : String
  attemptsIdentity : Nat
  collectedData : CollectedData
  context : Context
  identityVerified : Bool
deriving DecidableEq, Repr

/-- The state built by the `VerificationAgent` constructor. -/
def initialState : AgentState :=
  ⟨"START", 0, CollectedData.empty, Context.empty, false⟩

/-- Result of one `extractEntities` call, one field per schema key the
handlers ever request; `none` is an absent (`undefined`) field.
`throws = true` models the call rejecting, which each handler catches
and turns into a reprompt. -/
structure Extraction where
  date : Option String
  ssn : Option String
  street : Option String
  city : Option String
  state : Option String
  zip_code : Option String
  email : Option String
  income : Option String
  tenure : Option String
  throws : Bool
deriving DecidableEq, Repr

/-- Extraction oracle returning nothing. -/
def Extraction.empty : Extraction :=
  ⟨none, none, none, none, none, none, none, none, none, false⟩

/-- One processed turn: the caller utterance together with the
behaviour of the extraction collaborator on that turn. -/
structure Input where
  utterance : String
  ext : Extraction
deriving DecidableEq, Repr

/-! ## Deterministic core -/

/-- Embeds `VerificationAgent.validateIdentity`: exact string equality
of both the date of birth and the SSN digits against the applicant
record (`===` on possibly-`null` collected values). -/
def validateIdentity (a : ApplicantData) (dob ssnLast4 : Option String) : Bool :=
  (dob == some a.date_of_birth) && (ssnLast4 == some a.ssn_last_four)

/-! ## Handlers (`VerificationAgent` methods)

Each handler takes the current state and one `Input` and returns the
updated state, exactly mirroring the branches of the corresponding
method.  `transitionTo` is an assignment of `currentNodeId`, identical
to the bare assignments the reprompt branches use. -/

/-- Embeds `handleGreetingConfirmation`: a reply containing `yes` or
`yeah` proceeds to date-of-birth collection, anything else routes to
the incorrect-person termination id. -/
def handleGreetingConfirmation (s : AgentState) (i : Input) : AgentState :=
  let r := jsToLower i.utterance
  if jsIncludes r "yes" || jsIncludes r "yeah" then
    { s with currentNodeId := "IDENTITY_VERIFICATION_DOB" }
  else
    { s with currentNodeId := "INCORRECT_PERSON_TERMINATION" }

/-- Embeds `handleDobCollection`: store the extracted date when it
passes `validateDob`, otherwise (including an extraction throw) stay on
the DOB node. -/
def handleDobCollection (today : Date3) (s : AgentState) (i : Input) : AgentState :=
  if i.ext.throws then { s with currentNodeId := "IDENTITY_VERIFICATION_DOB" }
  else if truthyStr i.ext.date && validateDob today (i.ext.date.getD "") then
    { s with collectedData := { s.collectedData with dob := i.ext.date },
             currentNodeId := "IDENTITY_VERIFICATION_SSN" }
  else { s with currentNodeId := "IDENTITY_VERIFICATION_DOB" }

/-- Embeds `handleSsnCollection`: store the extracted digits when they
pass `validateSsnLast4`, otherwise stay on the SSN node. -/
def handleSsnCollection (s : AgentState) (i : Input) : AgentState :=
  if i.ext.throws then { s with currentNodeId := "IDENTITY_VERIFICATION_SSN" }
  else if truthyStr i.ext.ssn && validateSsnLast4 (i.ext.ssn.getD "") then
    { s with collectedData := { s.collectedData with ssnLast4 := i.ext.ssn },
             currentNodeId := "IDENTITY_VERIFICATION_CONFIRM" }
  else { s with currentNodeId := "IDENTITY_VERIFICATION_SSN" }

/-- Embeds `handleIdentityConfirmation`: on an affirmative reply,
re-check the collected pair against the applicant record; a match sets
the gate and follows `onSuccess`, a mismatch increments the attempt
counter and either terminates (counter at the maximum) or follows
`onFailure`; a non-affirmative reply returns to DOB collection. -/
def handleIdentityConfirmation (cfg : Config) (a : ApplicantData)
    (s : AgentState) (i : Input) : AgentState :=
  let r := jsToLower i.utterance
  if jsIncludes r "yes" || jsIncludes r "correct" then
    if validateIdentity a s.collectedData.dob s.collectedData.ssnLast4 then
      { s with identityVerified := true, currentNodeId := confirmOnSuccess }
    else
      let att := s.attemptsIdentity + 1
      if att ≥ cfg.maxIdentityAttempts then
        { s with attemptsIdentity := att,
                 currentNodeId := "IDENTITY_FAILURE_TERMINATION" }
      else
        { s with attemptsIdentity := att, currentNodeId := confirmOnFailure }
  else
    { s with currentNodeId := "IDENTITY_VERIFICATION_DOB" }

/-- Embeds `handleIdentityRetry`: a reply mentioning the date of birth
or the SSN (or consisting of exactly four digits) re-collects that
field when the extracted value validates; otherwise both identity
fields are reset to `null` and collection restarts at DOB. -/
def handleIdentityRetry (today : Date3) (s : AgentState) (i : Input) : AgentState :=
  let r := jsToLower i.utterance
  if (jsIncludes r "dob" || jsIncludes r "date" || jsIncludes r "birth") &&
     (!i.ext.throws && truthyStr i.ext.date && validateDob today (i.ext.date.getD "")) then
    { s with collectedData := { s.collectedData with dob := i.ext.date },
             currentNodeId := "IDENTITY_VERIFICATION_SSN" }
  else if (jsIncludes r "ssn" || jsIncludes r "social" ||
      ((jsTrim i.utterance).data.length == 4 &&
        (jsTrim i.utterance).data.all Char.isDigit)) &&
     (!i.ext.throws && truthyStr i.ext.ssn && validateSsnLast4 (i.ext.ssn.getD "")) then
    { s with collectedData := { s.collectedData with ssnLast4 := i.ext.ssn },
             currentNodeId := "IDENTITY_VERIFICATION_CONFIRM" }
  else
    { s with collectedData := { s.collectedData with dob := none, ssnLast4 := none },
             currentNodeId := "IDENTITY_VERIFICATION_DOB" }

/-- Embeds `handleAddressCollection`: when all four extracted
components are truthy strings the address record is stored as-is (the
source never consults `validateAddress`); otherwise the node
reprompts. -/
def handleAddressCollection (s : AgentState) (i : Input) : AgentState :=
  if i.ext.throws then { s with currentNodeId := "CONTACT_INFO_ADDRESS" }
  else if truthyStr i.ext.street && truthyStr i.ext.city &&
          truthyStr i.ext.state && truthyStr i.ext.zip_code then
    let addr : Address :=
      ⟨i.ext.street.getD "", i.ext.city.getD "", i.ext.state.getD "", i.ext.zip_code.getD ""⟩
    { s with collectedData := { s.collectedData with address := some addr },
             currentNodeId := "CONTACT_INFO_UNIT" }
  else { s with currentNodeId := "CONTACT_INFO_ADDRESS" }

/-- Embeds `handleUnitCollection`: an affirmative reply stays on the
unit node, anything else proceeds to email collection; no data is
recorded in either case. -/
def handleUnitCollection (s : AgentState) (i : Input) : AgentState :=
  let r := jsToLower i.utterance
  if jsIncludes r "yes" || jsIncludes r "yeah" then
    { s with currentNodeId := "CONTACT_INFO_UNIT" }
  else
    { s with currentNodeId := "CONTACT_INFO_EMAIL" }

/-- The six fixed phrases `handleEmailCollection` checks for a caller
without an email address. -/
def noEmailPhrases : List String :=
  ["i don\x27t have an email",
   "i don\x27t have an email address",
   "no email",
   "i don\x27t use email",
   "no email address",
   "don\x27t have email"]

/-- Embeds `handleEmailCollection`: a no-email phrase records
`email = null` and `noEmail = true`; otherwise a validated extracted
email is stored, and anything else reprompts. -/
def handleEmailCollection (s : AgentState) (i : Input) : AgentState :=
  let r := jsToLower i.utterance
  if noEmailPhrases.any (fun p => jsIncludes r p) then
    { s with collectedData := { s.collectedData with email := none, noEmail := true },
             currentNodeId := "EMPLOYMENT_INCOME" }
  else if i.ext.throws then { s with currentNodeId := "CONTACT_INFO_EMAIL" }
  else if truthyStr i.ext.email && validateEmail (i.ext.email.getD "") then
    { s with collectedData := { s.collectedData with email := i.ext.email },
             currentNodeId := "EMPLOYMENT_INCOME" }
  else { s with currentNodeId := "CONTACT_INFO_EMAIL" }

/-- Embeds `handleIncomeCollection`: strip every non-digit from the
extracted string, `parseInt` the remainder, and store it when truthy
and within `validateIncome`; otherwise reprompt.  A missing extraction
field makes the source throw on `.replace` and land in the `catch`
reprompt. -/
def handleIncomeCollection (s : AgentState) (i : Input) : AgentState :=
  if i.ext.throws then { s with currentNodeId := "EMPLOYMENT_INCOME" }
  else
    match i.ext.income with
    | none => { s with currentNodeId := "EMPLOYMENT_INCOME" }
    | some raw =>
      let cleanIncome := raw.data.filter Char.isDigit
      let incomeValue : Option Int :=
        if cleanIncome.isEmpty then none else some (natOfDigits cleanIncome : Int)
      if truthyNum incomeValue && validateIncome (incomeValue.getD 0) then
        { s with collectedData := { s.collectedData with monthlyIncome := incomeValue },
                 currentNodeId := "EMPLOYMENT_TENURE" }
      else { s with currentNodeId := "EMPLOYMENT_INCOME" }

/-- The fixed phrases `handleTenureCollection` checks for a
self-employed caller. -/
def selfEmployedPhrases : List String :=
  ["i\x27m self-employed",
   "self-employed",
   "i don\x27t have a traditional job tenure",
   "i work for myself",
   "freelancer",
   "contractor",
   "i\x27m my own boss"]

/-- Embeds `handleTenureCollection`: a self-employed phrase records
`jobTenure = null` with status `self_employed`; otherwise the parsed
extracted tenure is stored (the possibly-`NaN` `parseInt` result, which
`validateTenure` accepts) and the flow proceeds to the discrepancy
check; anything else reprompts. -/
def handleTenureCollection (s : AgentState) (i : Input) : AgentState :=
  let r := jsToLower i.utterance
  if selfEmployedPhrases.any (fun p => jsIncludes r p) then
    let cd := { s.collectedData with jobTenure := none, employmentStatus := some "self_employed" }
    { s with collectedData := cd, currentNodeId := "TENURE_DISCREPANCY_CHECK" }
  else if i.ext.throws then { s with currentNodeId := "EMPLOYMENT_TENURE" }
  else if truthyStr i.ext.tenure && validateTenureNum (parseIntJs (i.ext.tenure.getD "")) then
    let cd := { s.collectedData with jobTenure := parseIntJs (i.ext.tenure.getD "") }
    { s with collectedData := cd, currentNodeId := "TENURE_DISCREPANCY_CHECK" }
  else { s with currentNodeId := "EMPLOYMENT_TENURE" }

/-- The keywords the discrepancy handler scans an explanation for;
both the matching and the non-matching branch of the source transition
to final confirmation, differing only in what they log. -/
def explanationKeywords : List String :=
  ["promotion", "new position", "same company", "different role",
   "clarify", "explain", "confusion", "understand"]

/-- Embeds `handleTenureDiscrepancy`: self-employed callers skip the
check; a stated/application difference above the threshold surfaces the
clarification once (recorded in `context.discrepancyShown`) and on the
following turn proceeds to final confirmation whatever the explanation
contains; otherwise the flow proceeds directly. -/
def handleTenureDiscrepancy (cfg : Config) (a : ApplicantData)
    (s : AgentState) (i : Input) : AgentState :=
  let statedTenure := s.collectedData.jobTenure
  let applicationTenure := jsOrNum a.application_job_tenure a.job_tenure_months
  if s.collectedData.employmentStatus == some "self_employed" then
    { s with currentNodeId := "FINAL_CONFIRMATION" }
  else
    let hasDiscrepancy := truthyNum statedTenure && truthyNum applicationTenure &&
      decide (((statedTenure.getD 0 - applicationTenure.getD 0).natAbs : Int) >
        cfg.jobTenureThreshold)
    if hasDiscrepancy then
      let ctx : Context :=
        ⟨s.context.discrepancyShown, true, applicationTenure, statedTenure⟩
      if !s.context.discrepancyShown then
        { s with context := { ctx with discrepancyShown := true },
                 currentNodeId := "TENURE_DISCREPANCY_CHECK" }
      else
        let explanation := jsToLower i.utterance
        if explanationKeywords.any (fun k => jsIncludes explanation k) then
          { s with context := ctx, currentNodeId := "FINAL_CONFIRMATION" }
        else
          { s with context := ctx, currentNodeId := "FINAL_CONFIRMATION" }
    else { s with currentNodeId := "FINAL_CONFIRMATION" }

/-- The affirmative keyword test of `handleFinalConfirmation`. -/
def affirmativeReply (u : String) : Bool :=
  let r := jsToLower u
  jsIncludes r "yes" || jsIncludes r "correct" || jsIncludes r "ok" || jsIncludes r "good"

/-- The negative keyword test of `handleFinalConfirmation`, consulted
only when the affirmative test fails. -/
def negativeReply (u : String) : Bool :=
  let r := jsToLower u
  jsIncludes r "no" || jsIncludes r "not" || jsIncludes r "wrong"

/-- The three-way classification the final-confirmation handler applies
to a reply. -/
inductive ReplyClass where
  | affirmative
  | negative
  | ambiguous
deriving DecidableEq, Repr

/-- Classification by substring keyword match, in the branch order of
the source: affirmative keywords first, then negative, else
ambiguous. -/
def classifyReply (u : String) : ReplyClass :=
  if affirmativeReply u then .affirmative
  else if negativeReply u then .negative
  else .ambiguous

/-- Embeds `handleFinalConfirmation`: affirmative completes the call,
negative restarts the contact-info section at address collection, and
an ambiguous reply stays for clarification. -/
def handleFinalConfirmation (s : AgentState) (i : Input) : AgentState :=
  if affirmativeReply i.utterance then
    { s with currentNodeId := "COMPLETION" }
  else if negativeReply i.utterance then
    { s with currentNodeId := "CONTACT_INFO_ADDRESS" }
  else
    { s with currentNodeId := "FINAL_CONFIRMATION" }

/-! ## The dispatcher (`processUserInput`) -/

/-- Embeds the dynamic dispatch `this[currentNode.handler]` over the
handler names stored in the flow table.  `terminate` and `complete` are
the no-op terminal handlers. -/
def dispatch (cfg : Config) (today : Date3) (a : ApplicantData)
    (handler : String) (s : AgentState) (i : Input) : AgentState :=
  match handler with
  | "handleGreetingConfirmation" => handleGreetingConfirmation s i
  | "handleDobCollection" => handleDobCollection today s i
  | "handleSsnCollection" => handleSsnCollection s i
  | "handleIdentityConfirmation" => handleIdentityConfirmation cfg a s i
  | "handleIdentityRetry" => handleIdentityRetry today s i
  | "handleAddressCollection" => handleAddressCollection s i
  | "handleUnitCollection" => handleUnitCollection s i
  | "handleEmailCollection" => handleEmailCollection s i
  | "handleIncomeCollection" => handleIncomeCollection s i
  | "handleTenureCollection" => handleTenureCollection s i
  | "handleTenureDiscrepancy" => handleTenureDiscrepancy cfg a s i
  | "handleFinalConfirmation" => handleFinalConfirmation s i
  | _ => s

/-- Embeds `processUserInput`: look the current node up in the flow
table — an absent key is reported as a configuration error and leaves
the state untouched — and run the handler the node names. -/
def step (cfg : Config) (today : Date3) (a : ApplicantData)
    (s : AgentState) (i : Input) : AgentState :=
  match findNode s.currentNodeId with
  | none => s
  | some n => dispatch cfg today a n.handler s i

/-- The states a session can be in after processing any finite sequence
of caller utterances from the freshly constructed state. -/
inductive Reachable (cfg : Config) (today : Date3) (a : ApplicantData) :
    AgentState → Prop where
  | init : Reachable cfg today a initialState
  | next : ∀ {s : AgentState} (i : Input),
      Reachable cfg today a s → Reachable cfg today a (step cfg today a s i)

/-- The decision structure of the `TENURE_DISCREPANCY_CHECK` prompt
template in `conversationFlow.js`: the template is a ternary on
`context.hasDiscrepancy`, rendering the clarification question (with
the stored application and stated tenures interpolated) when the flag
is truthy and a plain acknowledgement otherwise.  Since
`processUserInput` re-renders the new current node\x27s prompt after
every handler run, a turn surfaces the clarification exactly when the
state it produces is on the discrepancy node with the flag set. -/
def rendersDiscrepancyClarification (s : AgentState) : Bool :=
  s.currentNodeId == "TENURE_DISCREPANCY_CHECK" && s.context.hasDiscrepancy

/-! ## Specification-side definitions

The following definitions come from the specification text, not from
the source; they are used to state the claims against the embedded
code. -/

/-- The nodes the specification reserves for verified callers: address,
unit, email, income, tenure, discrepancy, final confirmation and
completion. -/
def postIdentityNodes : List String :=
  ["CONTACT_INFO_ADDRESS", "CONTACT_INFO_UNIT", "CONTACT_INFO_EMAIL",
   "EMPLOYMENT_INCOME", "EMPLOYMENT_TENURE", "TENURE_DISCREPANCY_CHECK",
   "FINAL_CONFIRMATION", "COMPLETION"]

/-- Decimal digit character of `n % 10`, for rendering reference
dates. -/
def digitOf (n : Nat) : Char := Nat.digitChar (n % 10)

/-- Two-digit zero-padded rendering of a number below 100. -/
def pad2 (n : Nat) : List Char := [digitOf (n / 10), digitOf n]

/-- Four-digit zero-padded rendering of a number below 10000. -/
def pad4 (n : Nat) : List Char :=
  [digitOf (n / 1000), digitOf (n / 100), digitOf (n / 10), digitOf n]

/-- The `YYYY-MM-DD` rendering of a calendar date. -/
def isoString (b : Date3) : String :=
  ⟨(pad4 b.year ++ ['-']) ++ ((pad2 b.month ++ ['-']) ++ pad2 b.day)⟩

/-- What `validateDob` actually accepts: the ISO rendering of a real
calendar date with a four-digit year, not after the current date, whose
calendar-year difference from the current year is at least 18.  This is
the claim amended at the age clause: the source subtracts calendar
years and never consults month or day for the age test. -/
def DobAccepted (today : Date3) (s : String) : Prop :=
  ∃ b : Date3, s = isoString b ∧ b.year ≤ 9999 ∧ isRealDate b = true ∧
    dateAfter b today = false ∧ (18 : Int) ≤ (today.year : Int) - (b.year : Int)

/-- Age in completed years at `today` of somebody born on `b`: the year
difference, less one when the birthday has not yet occurred this
year.  This is the "full years" reading of the original claim. -/
def fullYearsAge (today b : Date3) : Int :=
  (today.year : Int) - (b.year : Int) -
    (if today.month < b.month ∨ (today.month = b.month ∧ today.day < b.day) then 1 else 0)

/-! ## Concrete session used by the witnesses

A session against the reference applicant of the repository test data,
driven through identity verification. -/

/-- Default configuration (threshold 24 months, 2 identity attempts). -/
def demoCfg : Config := ⟨24, 2⟩

/-- Configuration with a single allowed identity attempt. -/
def demoCfg1 : Config := ⟨24, 1⟩

/-- Evaluation date used by the concrete runs. -/
def demoToday : Date3 := ⟨2026, 10, 11⟩

/-- The reference applicant of the repository test fixtures. -/
def demoApplicant : ApplicantData :=
  ⟨"Michael Thompson", "1985-03-15", "7234", some 36, none⟩

/-- Affirmative greeting reply. -/
def inpGreet : Input := ⟨"Yes that is me.", Extraction.empty⟩

/-- Date-of-birth turn with the extractor returning the ISO date. -/
def inpDob : Input :=
  ⟨"March 15th 1985", { Extraction.empty with date := some "1985-03-15" }⟩

/-- SSN turn returning the matching digits. -/
def inpSsn : Input := ⟨"7234", { Extraction.empty with ssn := some "7234" }⟩

/-- SSN turn returning digits that do not match the record. -/
def inpSsnWrong : Input := ⟨"5678", { Extraction.empty with ssn := some "5678" }⟩

/-- Affirmative confirmation reply. -/
def inpConfirm : Input := ⟨"Yes that is correct", Extraction.empty⟩

/-- State after the greeting turn: DOB collection. -/
def demo1 : AgentState := step demoCfg demoToday demoApplicant initialState inpGreet

/-- State after the DOB turn: SSN collection. -/
def demo2 : AgentState := step demoCfg demoToday demoApplicant demo1 inpDob

/-- State after the SSN turn: identity confirmation. -/
def demo3 : AgentState := step demoCfg demoToday demoApplicant demo2 inpSsn

/-- State after a successful confirmation: address collection with the
gate set. -/
def demo4 : AgentState := step demoCfg demoToday demoApplicant demo3 inpConfirm

/-- State at the confirmation node holding a mismatching SSN. -/
def demoWrong3 : AgentState := step demoCfg demoToday demoApplicant demo2 inpSsnWrong

/-- A greeting denial. -/
def denyInput : Input := ⟨"No wrong person", Extraction.empty⟩

/-- The state reached by denying the greeting. -/
def denyState : AgentState := step demoCfg demoToday demoApplicant initialState denyInput

/-- An address turn whose extracted ZIP code is not a ZIP shape. -/
def badAddressInput : Input :=
  ⟨"123 Main Street Denver Colorado ABCDE",
   { Extraction.empty with
       street := some "123 Main Street", city := some "Denver",
       state := some "Colorado", zip_code := some "ABCDE" }⟩

/-- The state reached by submitting that address on the address node. -/
def badAddressState : AgentState :=
  step demoCfg demoToday demoApplicant demo4 badAddressInput

/-- A state parked on the final-confirmation node. -/
def demoFinalState : AgentState :=
  ⟨"FINAL_CONFIRMATION", 0, CollectedData.empty, Context.empty, true⟩

/-- A state parked on the unit-collection node. -/
def demoUnitState : AgentState :=
  ⟨"CONTACT_INFO_UNIT", 0, CollectedData.empty, Context.empty, true⟩

/-- A state parked on the discrepancy node with a large stated/record
tenure gap. -/
def demoDiscState : AgentState :=
  ⟨"TENURE_DISCREPANCY_CHECK", 0,
   { CollectedData.empty with jobTenure := some 8 }, Context.empty, true⟩

/-- The same state one clarification turn later (the discrepancy has
been shown once). -/
def demoDisc2State : AgentState :=
  step demoCfg demoToday demoApplicant demoDiscState ⟨"umm", Extraction.empty⟩

/-- A state parked on the discrepancy node for a self-employed
caller. -/
def demoSelfState : AgentState :=
  ⟨"TENURE_DISCREPANCY_CHECK", 0,
   { CollectedData.empty with employmentStatus := some "self_employed" },
   Context.empty, true⟩


/-- Address turn with a well-formed ZIP, used by the discrepancy
trace. -/
def discInpAddress : Input :=
  ⟨"123 Main Street Denver Colorado 80202",
   { Extraction.empty with
       street := some "123 Main Street", city := some "Denver",
       state := some "Colorado", zip_code := some "80202" }⟩

/-- Reply declining a unit number. -/
def discInpNoUnit : Input := ⟨"No unit", Extraction.empty⟩

/-- Reply declining to give an email address. -/
def discInpNoEmail : Input := ⟨"no email", Extraction.empty⟩

/-- Income turn extracting a valid monthly income. -/
def discInpIncome : Input :=
  ⟨"6500 a month", { Extraction.empty with income := some "$6,500" }⟩

/-- Tenure turn stating 8 months, far from the 36 on record. -/
def discInpTenure8 : Input :=
  ⟨"8 months", { Extraction.empty with tenure := some "8" }⟩

/-- Tenure turn stating 36 months, matching the record exactly. -/
def discInpTenure36 : Input :=
  ⟨"36 months", { Extraction.empty with tenure := some "36" }⟩

/-- Reply given when the clarification is first rendered. -/
def discInpWhy : Input := ⟨"why is that", Extraction.empty⟩

/-- Free-text explanation for the discrepancy. -/
def discInpNoIdea : Input := ⟨"no idea", Extraction.empty⟩

/-- Negative reply at final confirmation. -/
def discInpReject : Input := ⟨"That is wrong", Extraction.empty⟩

/-- Turn 5 of the discrepancy trace: address stored, unit node. -/
def discTurn5 : AgentState := step demoCfg demoToday demoApplicant demo4 discInpAddress

/-- Turn 6: no unit, email node. -/
def discTurn6 : AgentState := step demoCfg demoToday demoApplicant discTurn5 discInpNoUnit

/-- Turn 7: no email, income node. -/
def discTurn7 : AgentState := step demoCfg demoToday demoApplicant discTurn6 discInpNoEmail

/-- Turn 8: income stored, tenure node. -/
def discTurn8 : AgentState := step demoCfg demoToday demoApplicant discTurn7 discInpIncome

/-- Turn 9: tenure 8 stored, discrepancy node entered with the render
flag still clear. -/
def discTurn9 : AgentState := step demoCfg demoToday demoApplicant discTurn8 discInpTenure8

/-- Turn 10: the handler detects the gap, sets `hasDiscrepancy` and
`discrepancyShown`, and stays — the clarification renders (first
surfacing). -/
def discTurn10 : AgentState := step demoCfg demoToday demoApplicant discTurn9 discInpWhy

/-- Turn 11: explanation consumed, final confirmation. -/
def discTurn11 : AgentState := step demoCfg demoToday demoApplicant discTurn10 discInpNoIdea

/-- Turn 12: the caller rejects the summary, back to address
collection. -/
def discTurn12 : AgentState := step demoCfg demoToday demoApplicant discTurn11 discInpReject

/-- Turns 13 to 16: the contact-info and employment section is redone. -/
def discTurn13 : AgentState := step demoCfg demoToday demoApplicant discTurn12 discInpAddress

/-- Turn 14: no unit again. -/
def discTurn14 : AgentState := step demoCfg demoToday demoApplicant discTurn13 discInpNoUnit

/-- Turn 15: no email again. -/
def discTurn15 : AgentState := step demoCfg demoToday demoApplicant discTurn14 discInpNoEmail

/-- Turn 16: income again. -/
def discTurn16 : AgentState := step demoCfg demoToday demoApplicant discTurn15 discInpIncome

/-- Turn 17: tenure re-stated as 36 — matching the record — yet the
discrepancy node is re-entered with `hasDiscrepancy` still set, so the
clarification renders a second time. -/
def discTurn17 : AgentState := step demoCfg demoToday demoApplicant discTurn16 discInpTenure36

/-! ## Case analysis on one step -/

/-- Dispatch of a step taken on the identity-confirmation node. -/
lemma step_at_confirm (cfg : Config) (today : Date3) (a : ApplicantData)
    (s : AgentState) (i : Input) (h : s.currentNodeId = "IDENTITY_VERIFICATION_CONFIRM") :
    step cfg today a s i = handleIdentityConfirmation cfg a s i := by
  unfold step; rw [h]; rfl

/-- Dispatch of a step taken on the unit-collection node. -/
lemma step_at_unit (cfg : Config) (today : Date3) (a : ApplicantData)
    (s : AgentState) (i : Input) (h : s.currentNodeId = "CONTACT_INFO_UNIT") :
    step cfg today a s i = handleUnitCollection s i := by
  unfold step; rw [h]; rfl

/-- Dispatch of a step taken on the discrepancy-check node. -/
lemma step_at_discrepancy (cfg : Config) (today : Date3) (a : ApplicantData)
    (s : AgentState) (i : Input) (h : s.currentNodeId = "TENURE_DISCREPANCY_CHECK") :
    step cfg today a s i = handleTenureDiscrepancy cfg a s i := by
  unfold step; rw [h]; rfl

/-- Dispatch of a step taken on the final-confirmation node. -/
lemma step_at_final (cfg : Config) (today : Date3) (a : ApplicantData)
    (s : AgentState) (i : Input) (h : s.currentNodeId = "FINAL_CONFIRMATION") :
    step cfg today a s i = handleFinalConfirmation s i := by
  unfold step; rw [h]; rfl

/-- Exhaustive description of one dispatcher step: the current node is
either absent from the flow table (the reported configuration error,
state unchanged) or one of the fourteen defined nodes, running the
handler that node names. -/
lemma step_eq_cases (cfg : Config) (today : Date3) (a : ApplicantData)
    (s : AgentState) (i : Input) :
    (findNode s.currentNodeId = none ∧ step cfg today a s i = s) ∨
    (s.currentNodeId = "START" ∧ step cfg today a s i = handleGreetingConfirmation s i) ∨
    (s.currentNodeId = "IDENTITY_VERIFICATION_DOB" ∧ step cfg today a s i = handleDobCollection today s i) ∨
    (s.currentNodeId = "IDENTITY_VERIFICATION_SSN" ∧ step cfg today a s i = handleSsnCollection s i) ∨
    (s.currentNodeId = "IDENTITY_VERIFICATION_CONFIRM" ∧ step cfg today a s i = handleIdentityConfirmation cfg a s i) ∨
    (s.currentNodeId = "IDENTITY_VERIFICATION_RETRY" ∧ step cfg today a s i = handleIdentityRetry today s i) ∨
    (s.currentNodeId = "IDENTITY_FAILURE_TERMINATION" ∧ step cfg today a s i = s) ∨
    (s.currentNodeId = "CONTACT_INFO_ADDRESS" ∧ step cfg today a s i = handleAddressCollection s i) ∨
    (s.currentNodeId = "CONTACT_INFO_UNIT" ∧ step cfg today a s i = handleUnitCollection s i) ∨
    (s.currentNodeId = "CONTACT_INFO_EMAIL" ∧ step cfg today a s i = handleEmailCollection s i) ∨
    (s.currentNodeId = "EMPLOYMENT_INCOME" ∧ step cfg today a s i = handleIncomeCollection s i) ∨
    (s.currentNodeId = "EMPLOYMENT_TENURE" ∧ step cfg today a s i = handleTenureCollection s i) ∨
    (s.currentNodeId = "TENURE_DISCREPANCY_CHECK" ∧ step cfg today a s i = handleTenureDiscrepancy cfg a s i) ∨
    (s.currentNodeId = "FINAL_CONFIRMATION" ∧ step cfg today a s i = handleFinalConfirmation s i) ∨
    (s.currentNodeId = "COMPLETION" ∧ step cfg today a s i = s) := by
  cases hf : findNode s.currentNodeId with
  | none =>
    refine Or.inl ⟨rfl, ?_⟩
    unfold step; rw [hf]
  | some n =>
    have hf' : nodes.find? (fun x => x.id == s.currentNodeId) = some n := hf
    have hid : n.id = s.currentNodeId := by simpa using List.find?_some hf'
    have hmem : n ∈ nodes := List.mem_of_find?_eq_some hf'
    have hstep : step cfg today a s i = dispatch cfg today a n.handler s i := by
      unfold step; rw [hf]
    simp only [nodes, List.mem_cons, List.not_mem_nil, or_false] at hmem
    rcases hmem with rfl | rfl | rfl | rfl | rfl | rfl | rfl | rfl | rfl | rfl | rfl | rfl | rfl | rfl
    · exact Or.inr (Or.inl ⟨hid.symm, hstep⟩)
    · exact Or.inr (Or.inr (Or.inl ⟨hid.symm, hstep⟩))
    · exact Or.inr (Or.inr (Or.inr (Or.inl ⟨hid.symm, hstep⟩)))
    · exact Or.inr (Or.inr (Or.inr (Or.inr (Or.inl ⟨hid.symm, hstep⟩))))
    · exact Or.inr (Or.inr (Or.inr (Or.inr (Or.inr (Or.inl ⟨hid.symm, hstep⟩)))))
    · exact Or.inr (Or.inr (Or.inr (Or.inr (Or.inr (Or.inr (Or.inl ⟨hid.symm, hstep⟩))))))
    · exact Or.inr (Or.inr (Or.inr (Or.inr (Or.inr (Or.inr (Or.inr (Or.inl ⟨hid.symm, hstep⟩)))))))
    · exact Or.inr (Or.inr (Or.inr (Or.inr (Or.inr (Or.inr (Or.inr (Or.inr (Or.inl ⟨hid.symm, hstep⟩))))))))
    · exact Or.inr (Or.inr (Or.inr (Or.inr (Or.inr (Or.inr (Or.inr (Or.inr (Or.inr (Or.inl ⟨hid.symm, hstep⟩)))))))))
    · exact Or.inr (Or.inr (Or.inr (Or.inr (Or.inr (Or.inr (Or.inr (Or.inr (Or.inr (Or.inr (Or.inl ⟨hid.symm, hstep⟩))))))))))
    · exact Or.inr (Or.inr (Or.inr (Or.inr (Or.inr (Or.inr (Or.inr (Or.inr (Or.inr (Or.inr (Or.inr (Or.inl ⟨hid.symm, hstep⟩)))))))))))
    · exact Or.inr (Or.inr (Or.inr (Or.inr (Or.inr (Or.inr (Or.inr (Or.inr (Or.inr (Or.inr (Or.inr (Or.inr (Or.inl ⟨hid.symm, hstep⟩))))))))))))
    · exact Or.inr (Or.inr (Or.inr (Or.inr (Or.inr (Or.inr (Or.inr (Or.inr (Or.inr (Or.inr (Or.inr (Or.inr (Or.inr (Or.inl ⟨hid.symm, hstep⟩)))))))))))))
    · exact Or.inr (Or.inr (Or.inr (Or.inr (Or.inr (Or.inr (Or.inr (Or.inr (Or.inr (Or.inr (Or.inr (Or.inr (Or.inr (Or.inr ⟨hid.symm, hstep⟩)))))))))))))

/-! ## Per-handler frame facts -/

/-- Greeting: counters, data, context and the gate are untouched; the
only effect is the branch between DOB collection and the
incorrect-person termination id. -/
lemma handleGreetingConfirmation_frame (s : AgentState) (i : Input) :
    (handleGreetingConfirmation s i).identityVerified = s.identityVerified ∧
    (handleGreetingConfirmation s i).attemptsIdentity = s.attemptsIdentity ∧
    (handleGreetingConfirmation s i).context = s.context ∧
    ((handleGreetingConfirmation s i).currentNodeId = "IDENTITY_VERIFICATION_DOB" ∨
     (handleGreetingConfirmation s i).currentNodeId = "INCORRECT_PERSON_TERMINATION") := by
  unfold handleGreetingConfirmation
  dsimp only
  split_ifs <;> simp

/-- DOB collection: gate, counter and context are untouched and the
step lands on the SSN node or stays. -/
lemma handleDobCollection_frame (today : Date3) (s : AgentState) (i : Input) :
    (handleDobCollection today s i).identityVerified = s.identityVerified ∧
    (handleDobCollection today s i).attemptsIdentity = s.attemptsIdentity ∧
    (handleDobCollection today s i).context = s.context ∧
    ((handleDobCollection today s i).currentNodeId = "IDENTITY_VERIFICATION_SSN" ∨
     (handleDobCollection today s i).currentNodeId = "IDENTITY_VERIFICATION_DOB") := by
  unfold handleDobCollection
  dsimp only
  split_ifs <;> simp

/-- SSN collection: gate, counter and context are untouched and the
step lands on the confirmation node or stays. -/
lemma handleSsnCollection_frame (s : AgentState) (i : Input) :
    (handleSsnCollection s i).identityVerified = s.identityVerified ∧
    (handleSsnCollection s i).attemptsIdentity = s.attemptsIdentity ∧
    (handleSsnCollection s i).context = s.context ∧
    ((handleSsnCollection s i).currentNodeId = "IDENTITY_VERIFICATION_CONFIRM" ∨
     (handleSsnCollection s i).currentNodeId = "IDENTITY_VERIFICATION_SSN") := by
  unfold handleSsnCollection
  dsimp only
  split_ifs <;> simp

/-- Identity retry: gate, counter and context are untouched and the
step lands on the SSN, confirmation or DOB node. -/
lemma handleIdentityRetry_frame (today : Date3) (s : AgentState) (i : Input) :
    (handleIdentityRetry today s i).identityVerified = s.identityVerified ∧
    (handleIdentityRetry today s i).attemptsIdentity = s.attemptsIdentity ∧
    (handleIdentityRetry today s i).context = s.context ∧
    ((handleIdentityRetry today s i).currentNodeId = "IDENTITY_VERIFICATION_SSN" ∨
     (handleIdentityRetry today s i).currentNodeId = "IDENTITY_VERIFICATION_CONFIRM" ∨
     (handleIdentityRetry today s i).currentNodeId = "IDENTITY_VERIFICATION_DOB") := by
  unfold handleIdentityRetry
  dsimp only
  split_ifs <;> simp

/-- Identity confirmation: the context is untouched; either the gate is
set (the success branch) with the counter unchanged, or the gate is
untouched and the counter either stays (the non-affirmative branch,
back to DOB) or increments (the mismatch branch, to termination or
retry). -/
lemma handleIdentityConfirmation_frame (cfg : Config) (a : ApplicantData)
    (s : AgentState) (i : Input) :
    (handleIdentityConfirmation cfg a s i).context = s.context ∧
    (((handleIdentityConfirmation cfg a s i).identityVerified = true ∧
      (handleIdentityConfirmation cfg a s i).attemptsIdentity = s.attemptsIdentity) ∨
     ((handleIdentityConfirmation cfg a s i).identityVerified = s.identityVerified ∧
      (((handleIdentityConfirmation cfg a s i).attemptsIdentity = s.attemptsIdentity ∧
        (handleIdentityConfirmation cfg a s i).currentNodeId = "IDENTITY_VERIFICATION_DOB") ∨
       ((handleIdentityConfirmation cfg a s i).attemptsIdentity = s.attemptsIdentity + 1 ∧
        ((handleIdentityConfirmation cfg a s i).currentNodeId = "IDENTITY_FAILURE_TERMINATION" ∨
         (handleIdentityConfirmation cfg a s i).currentNodeId = "IDENTITY_VERIFICATION_RETRY"))))) := by
  unfold handleIdentityConfirmation
  dsimp only
  split_ifs <;> simp
  right; decide

/-- Address collection: gate, counter and context are untouched. -/
lemma handleAddressCollection_frame (s : AgentState) (i : Input) :
    (handleAddressCollection s i).identityVerified = s.identityVerified ∧
    (handleAddressCollection s i).attemptsIdentity = s.attemptsIdentity ∧
    (handleAddressCollection s i).context = s.context := by
  unfold handleAddressCollection
  dsimp only
  split_ifs <;> simp

/-- Unit collection: gate, counter, context and collected data are all
untouched. -/
lemma handleUnitCollection_frame (s : AgentState) (i : Input) :
    (handleUnitCollection s i).identityVerified = s.identityVerified ∧
    (handleUnitCollection s i).attemptsIdentity = s.attemptsIdentity ∧
    (handleUnitCollection s i).context = s.context ∧
    (handleUnitCollection s i).collectedData = s.collectedData := by
  unfold handleUnitCollection
  dsimp only
  split_ifs <;> simp

/-- Email collection: gate, counter and context are untouched. -/
lemma handleEmailCollection_frame (s : AgentState) (i : Input) :
    (handleEmailCollection s i).identityVerified = s.identityVerified ∧
    (handleEmailCollection s i).attemptsIdentity = s.attemptsIdentity ∧
    (handleEmailCollection s i).context = s.context := by
  unfold handleEmailCollection
  dsimp only
  split_ifs <;> simp

/-- Income collection: gate, counter and context are untouched. -/
lemma handleIncomeCollection_frame (s : AgentState) (i : Input) :
    (handleIncomeCollection s i).identityVerified = s.identityVerified ∧
    (handleIncomeCollection s i).attemptsIdentity = s.attemptsIdentity ∧
    (handleIncomeCollection s i).context = s.context := by
  unfold handleIncomeCollection
  cases hI : i.ext.income <;> dsimp only <;> split_ifs <;> simp

/-- Tenure collection: gate, counter and context are untouched. -/
lemma handleTenureCollection_frame (s : AgentState) (i : Input) :
    (handleTenureCollection s i).identityVerified = s.identityVerified ∧
    (handleTenureCollection s i).attemptsIdentity = s.attemptsIdentity ∧
    (handleTenureCollection s i).context = s.context := by
  unfold handleTenureCollection
  dsimp only
  split_ifs <;> simp

/-- Tenure discrepancy: gate, counter and collected data are untouched,
and the discrepancy flag never goes back from `true` to `false`. -/
lemma handleTenureDiscrepancy_frame (cfg : Config) (a : ApplicantData)
    (s : AgentState) (i : Input) :
    (handleTenureDiscrepancy cfg a s i).identityVerified = s.identityVerified ∧
    (handleTenureDiscrepancy cfg a s i).attemptsIdentity = s.attemptsIdentity ∧
    (handleTenureDiscrepancy cfg a s i).collectedData = s.collectedData ∧
    ((handleTenureDiscrepancy cfg a s i).context.discrepancyShown = s.context.discrepancyShown ∨
     (handleTenureDiscrepancy cfg a s i).context.discrepancyShown = true) := by
  unfold handleTenureDiscrepancy
  dsimp only
  split_ifs <;> simp

/-- Final confirmation: gate, counter, context and collected data are
all untouched. -/
lemma handleFinalConfirmation_frame (s : AgentState) (i : Input) :
    (handleFinalConfirmation s i).identityVerified = s.identityVerified ∧
    (handleFinalConfirmation s i).attemptsIdentity = s.attemptsIdentity ∧
    (handleFinalConfirmation s i).context = s.context ∧
    (handleFinalConfirmation s i).collectedData = s.collectedData := by
  unfold handleFinalConfirmation
  split_ifs <;> simp

/-! ## Claim theorems -/

/-- Claim C1: for every applicant record and every pair of strings,
`validateIdentity` returns true iff the date of birth equals
`date_of_birth` exactly and the SSN digits equal `ssn_last_four`
exactly; starting from a matching pair, changing either component alone
makes the result false. -/
theorem validateIdentity_exact_match (a : ApplicantData) (dob ssn : String) :
    (validateIdentity a (some dob) (some ssn) = true ↔
      dob = a.date_of_birth ∧ ssn = a.ssn_last_four)
    ∧ (∀ dob2 : String, dob2 ≠ a.date_of_birth →
        validateIdentity a (some dob2) (some a.ssn_last_four) = false)
    ∧ (∀ ssn2 : String, ssn2 ≠ a.ssn_last_four →
        validateIdentity a (some a.date_of_birth) (some ssn2) = false) := by
  refine ⟨?_, ?_, ?_⟩
  · simp [validateIdentity]
  · intro d hd; simp [validateIdentity, hd]
  · intro t ht; simp [validateIdentity, ht]

/-- Witness for C1 at the reference applicant: the matching pair
verifies, and perturbing either the date or the digits alone fails. -/
theorem validateIdentity_exact_match_witness :
    validateIdentity demoApplicant (some "1985-03-15") (some "7234") = true
    ∧ validateIdentity demoApplicant (some "1985-03-16") (some "7234") = false
    ∧ validateIdentity demoApplicant (some "1985-03-15") (some "5678") = false := by
  have h := validateIdentity_exact_match demoApplicant "1985-03-15" "7234"
  exact ⟨h.1.mpr ⟨rfl, rfl⟩, h.2.1 "1985-03-16" (by decide), h.2.2 "5678" (by decide)⟩

/-- Claim C5: `validateSsnLast4` accepts exactly the non-empty strings
that, after stripping non-digit characters, consist of exactly four
digits not all equal; every four-identical-character string is
rejected, and a `null`/`undefined` argument is rejected. -/
theorem validateSsnLast4_characterization :
    (∀ s : String, validateSsnLast4 s = true ↔
      (s.data ≠ [] ∧ ∃ c1 c2 c3 c4 : Char,
        s.data.filter Char.isDigit = [c1, c2, c3, c4] ∧
        ¬(c1 = c2 ∧ c1 = c3 ∧ c1 = c4)))
    ∧ (∀ c : Char, validateSsnLast4 ⟨[c, c, c, c]⟩ = false)
    ∧ validateSsnLast4Js none = false := by
  refine ⟨?_, ?_, rfl⟩
  · intro s
    unfold validateSsnLast4
    dsimp only
    split_ifs with h1 h2
    · have h0 : s.data = [] := by simpa [List.isEmpty_iff] using h1
      simp [h0]
    · have hlen : (s.data.filter Char.isDigit).length ≠ 4 := by simpa using h2
      simp only [false_iff, not_and]
      rintro hne ⟨c1, c2, c3, c4, hf, hns⟩
      exact hlen (by rw [hf]; rfl)
    · have hne : s.data ≠ [] := by simpa [List.isEmpty_iff] using h1
      have hlen : (s.data.filter Char.isDigit).length = 4 := by simpa using h2
      rcases hF : s.data.filter Char.isDigit with _ | ⟨a1, _ | ⟨a2, _ | ⟨a3, _ | ⟨a4, _ | ⟨a5, t5⟩⟩⟩⟩⟩ <;>
        rw [hF] at hlen <;> simp at hlen
      dsimp only
      simp only [ne_eq, hne, not_false_eq_true, true_and]
      constructor
      · intro h
        refine ⟨a1, a2, a3, a4, rfl, ?_⟩
        simp at h
        tauto
      · rintro ⟨c1, c2, c3, c4, heq, hns⟩
        simp only [List.cons.injEq, and_true] at heq
        obtain ⟨rfl, rfl, rfl, rfl⟩ := heq
        simp
        tauto
  · intro c
    by_cases hc : c.isDigit
    · have hF : (String.mk [c, c, c, c]).data.filter Char.isDigit = [c, c, c, c] := by
        simp [hc]
      simp [validateSsnLast4, hF]
    · have hF : (String.mk [c, c, c, c]).data.filter Char.isDigit = [] := by
        simp [hc]
      simp [validateSsnLast4, hF]

/-- Claim C8: the final-confirmation handler classifies every reply by
substring keyword match; an affirmative reply completes the call, a
negative reply routes back to address collection, and an ambiguous
reply stays on the final-confirmation node. -/
theorem final_confirmation_routing (cfg : Config) (today : Date3)
    (a : ApplicantData) (s : AgentState) (i : Input)
    (h : s.currentNodeId = "FINAL_CONFIRMATION") :
    (classifyReply i.utterance = ReplyClass.affirmative →
      (step cfg today a s i).currentNodeId = "COMPLETION")
    ∧ (classifyReply i.utterance = ReplyClass.negative →
      (step cfg today a s i).currentNodeId = "CONTACT_INFO_ADDRESS")
    ∧ (classifyReply i.utterance = ReplyClass.ambiguous →
      step cfg today a s i = { s with currentNodeId := "FINAL_CONFIRMATION" }) := by
  rw [step_at_final cfg today a s i h]
  unfold handleFinalConfirmation classifyReply
  split_ifs <;> simp_all

/-- Witness for C8: an affirmative, a negative and an ambiguous reply
at a concrete final-confirmation state take the three routes. -/
theorem final_confirmation_routing_witness :
    (step demoCfg demoToday demoApplicant demoFinalState
      ⟨"Yes all correct", Extraction.empty⟩).currentNodeId = "COMPLETION"
    ∧ (step demoCfg demoToday demoApplicant demoFinalState
      ⟨"That is wrong", Extraction.empty⟩).currentNodeId = "CONTACT_INFO_ADDRESS"
    ∧ step demoCfg demoToday demoApplicant demoFinalState
      ⟨"hmm maybe", Extraction.empty⟩ =
      { demoFinalState with currentNodeId := "FINAL_CONFIRMATION" } :=
  ⟨(final_confirmation_routing demoCfg demoToday demoApplicant demoFinalState
      ⟨"Yes all correct", Extraction.empty⟩ rfl).1 (by decide),
   (final_confirmation_routing demoCfg demoToday demoApplicant demoFinalState
      ⟨"That is wrong", Extraction.empty⟩ rfl).2.1 (by decide),
   (final_confirmation_routing demoCfg demoToday demoApplicant demoFinalState
      ⟨"hmm maybe", Extraction.empty⟩ rfl).2.2 (by decide)⟩

/-- Claim C10: processing any utterance on the unit-collection node
never records anything — the collected data is left unchanged, and the
node either stays (reply contains `yes` or `yeah`) or moves on to email
collection. -/
theorem unit_collection_no_write (cfg : Config) (today : Date3)
    (a : ApplicantData) (s : AgentState) (i : Input)
    (h : s.currentNodeId = "CONTACT_INFO_UNIT") :
    (step cfg today a s i).collectedData = s.collectedData
    ∧ ((jsIncludes (jsToLower i.utterance) "yes" ||
        jsIncludes (jsToLower i.utterance) "yeah") = true →
        (step cfg today a s i).currentNodeId = "CONTACT_INFO_UNIT")
    ∧ ((jsIncludes (jsToLower i.utterance) "yes" ||
        jsIncludes (jsToLower i.utterance) "yeah") = false →
        (step cfg today a s i).currentNodeId = "CONTACT_INFO_EMAIL") := by
  rw [step_at_unit cfg today a s i h]
  refine ⟨(handleUnitCollection_frame s i).2.2.2, ?_, ?_⟩ <;>
    intro hb <;> unfold handleUnitCollection <;> dsimp only <;> rw [hb] <;> simp

/-- Witness for C10: a yes-reply stays on the unit node, another reply
moves to email collection, and the collected data is untouched. -/
theorem unit_collection_no_write_witness :
    (step demoCfg demoToday demoApplicant demoUnitState
      ⟨"Yes there is", Extraction.empty⟩).currentNodeId = "CONTACT_INFO_UNIT"
    ∧ (step demoCfg demoToday demoApplicant demoUnitState
      ⟨"No unit", Extraction.empty⟩).currentNodeId = "CONTACT_INFO_EMAIL"
    ∧ (step demoCfg demoToday demoApplicant demoUnitState
      ⟨"No unit", Extraction.empty⟩).collectedData = demoUnitState.collectedData :=
  ⟨(unit_collection_no_write demoCfg demoToday demoApplicant demoUnitState
      ⟨"Yes there is", Extraction.empty⟩ rfl).2.1 (by decide),
   (unit_collection_no_write demoCfg demoToday demoApplicant demoUnitState
      ⟨"No unit", Extraction.empty⟩ rfl).2.2 (by decide),
   (unit_collection_no_write demoCfg demoToday demoApplicant demoUnitState
      ⟨"No unit", Extraction.empty⟩ rfl).1⟩

/-- Branch-by-branch evaluation of the identity-confirmation handler,
used by the attempt-counter analysis. -/
lemma handleIdentityConfirmation_eval (cfg : Config) (a : ApplicantData)
    (s : AgentState) (i : Input) :
    ((jsIncludes (jsToLower i.utterance) "yes" ||
      jsIncludes (jsToLower i.utterance) "correct") = false →
      handleIdentityConfirmation cfg a s i =
        { s with currentNodeId := "IDENTITY_VERIFICATION_DOB" })
    ∧ ((jsIncludes (jsToLower i.utterance) "yes" ||
      jsIncludes (jsToLower i.utterance) "correct") = true →
      validateIdentity a s.collectedData.dob s.collectedData.ssnLast4 = true →
      handleIdentityConfirmation cfg a s i =
        { s with identityVerified := true, currentNodeId := "CONTACT_INFO_ADDRESS" })
    ∧ ((jsIncludes (jsToLower i.utterance) "yes" ||
      jsIncludes (jsToLower i.utterance) "correct") = true →
      validateIdentity a s.collectedData.dob s.collectedData.ssnLast4 = false →
      s.attemptsIdentity + 1 ≥ cfg.maxIdentityAttempts →
      handleIdentityConfirmation cfg a s i =
        { s with attemptsIdentity := s.attemptsIdentity + 1,
                 currentNodeId := "IDENTITY_FAILURE_TERMINATION" })
    ∧ ((jsIncludes (jsToLower i.utterance) "yes" ||
      jsIncludes (jsToLower i.utterance) "correct") = true →
      validateIdentity a s.collectedData.dob s.collectedData.ssnLast4 = false →
      ¬(s.attemptsIdentity + 1 ≥ cfg.maxIdentityAttempts) →
      handleIdentityConfirmation cfg a s i =
        { s with attemptsIdentity := s.attemptsIdentity + 1,
                 currentNodeId := "IDENTITY_VERIFICATION_RETRY" }) := by
  refine ⟨?_, ?_, ?_, ?_⟩
  · intro h1
    unfold handleIdentityConfirmation; dsimp only; rw [h1]; rfl
  · intro h1 h2
    unfold handleIdentityConfirmation; dsimp only; rw [h1, h2]; rfl
  · intro h1 h2 h3
    unfold handleIdentityConfirmation; dsimp only; rw [h1, h2, if_pos h3]; rfl
  · intro h1 h2 h3
    unfold handleIdentityConfirmation; dsimp only; rw [h1, h2, if_neg h3]; rfl

/-- Claim C4: `attempts.identity` never decreases across a processed
utterance; it changes only on a confirmed-but-mismatching identity
check, where it increments by one; and when the incremented counter
reaches `maxIdentityAttempts` the controller moves to the
identity-failure termination node, never to the retry node. -/
theorem identity_attempts_monotone_and_capped (cfg : Config) (today : Date3) (a : ApplicantData)
    (s : AgentState) (i : Input) :
    s.attemptsIdentity ≤ (step cfg today a s i).attemptsIdentity
    ∧ ((step cfg today a s i).attemptsIdentity ≠ s.attemptsIdentity →
        s.currentNodeId = "IDENTITY_VERIFICATION_CONFIRM"
        ∧ (jsIncludes (jsToLower i.utterance) "yes" ||
           jsIncludes (jsToLower i.utterance) "correct") = true
        ∧ validateIdentity a s.collectedData.dob s.collectedData.ssnLast4 = false
        ∧ (step cfg today a s i).attemptsIdentity = s.attemptsIdentity + 1)
    ∧ (s.currentNodeId = "IDENTITY_VERIFICATION_CONFIRM" →
        (jsIncludes (jsToLower i.utterance) "yes" ||
         jsIncludes (jsToLower i.utterance) "correct") = true →
        validateIdentity a s.collectedData.dob s.collectedData.ssnLast4 = false →
        (step cfg today a s i).attemptsIdentity = s.attemptsIdentity + 1
        ∧ (s.attemptsIdentity + 1 ≥ cfg.maxIdentityAttempts →
            (step cfg today a s i).currentNodeId = "IDENTITY_FAILURE_TERMINATION"
            ∧ (step cfg today a s i).currentNodeId ≠ "IDENTITY_VERIFICATION_RETRY")) := by
  have heval := handleIdentityConfirmation_eval cfg a s i
  refine ⟨?_, ?_, ?_⟩
  · rcases step_eq_cases cfg today a s i with
      ⟨_, he⟩ | ⟨hc, he⟩ | ⟨hc, he⟩ | ⟨hc, he⟩ | ⟨hc, he⟩ | ⟨hc, he⟩ | ⟨hc, he⟩ |
      ⟨hc, he⟩ | ⟨hc, he⟩ | ⟨hc, he⟩ | ⟨hc, he⟩ | ⟨hc, he⟩ | ⟨hc, he⟩ | ⟨hc, he⟩ | ⟨hc, he⟩ <;>
      rw [he]
    all_goals first
      | exact le_of_eq (handleGreetingConfirmation_frame s i).2.1.symm
      | exact le_of_eq (handleDobCollection_frame today s i).2.1.symm
      | exact le_of_eq (handleSsnCollection_frame s i).2.1.symm
      | exact le_of_eq (handleIdentityRetry_frame today s i).2.1.symm
      | exact le_of_eq (handleAddressCollection_frame s i).2.1.symm
      | exact le_of_eq (handleUnitCollection_frame s i).2.1.symm
      | exact le_of_eq (handleEmailCollection_frame s i).2.1.symm
      | exact le_of_eq (handleIncomeCollection_frame s i).2.1.symm
      | exact le_of_eq (handleTenureCollection_frame s i).2.1.symm
      | exact le_of_eq (handleTenureDiscrepancy_frame cfg a s i).2.1.symm
      | exact le_of_eq (handleFinalConfirmation_frame s i).2.1.symm
      | (rcases (handleIdentityConfirmation_frame cfg a s i).2 with
           ⟨h1, hA⟩ | ⟨h1, ⟨hA, h2⟩ | ⟨hA, h2⟩⟩ <;> omega)
  · intro hne
    rcases step_eq_cases cfg today a s i with
      ⟨_, he⟩ | ⟨hc, he⟩ | ⟨hc, he⟩ | ⟨hc, he⟩ | ⟨hc, he⟩ | ⟨hc, he⟩ | ⟨hc, he⟩ |
      ⟨hc, he⟩ | ⟨hc, he⟩ | ⟨hc, he⟩ | ⟨hc, he⟩ | ⟨hc, he⟩ | ⟨hc, he⟩ | ⟨hc, he⟩ | ⟨hc, he⟩ <;>
      rw [he] at hne
    all_goals first
      | exact absurd rfl hne
      | exact absurd (handleGreetingConfirmation_frame s i).2.1 hne
      | exact absurd (handleDobCollection_frame today s i).2.1 hne
      | exact absurd (handleSsnCollection_frame s i).2.1 hne
      | exact absurd (handleIdentityRetry_frame today s i).2.1 hne
      | exact absurd (handleAddressCollection_frame s i).2.1 hne
      | exact absurd (handleUnitCollection_frame s i).2.1 hne
      | exact absurd (handleEmailCollection_frame s i).2.1 hne
      | exact absurd (handleIncomeCollection_frame s i).2.1 hne
      | exact absurd (handleTenureCollection_frame s i).2.1 hne
      | exact absurd (handleTenureDiscrepancy_frame cfg a s i).2.1 hne
      | exact absurd (handleFinalConfirmation_frame s i).2.1 hne
      | skip
    cases hY : (jsIncludes (jsToLower i.utterance) "yes" ||
        jsIncludes (jsToLower i.utterance) "correct") with
    | false =>
      rw [heval.1 hY] at hne
      exact absurd rfl hne
    | true =>
      cases hV : validateIdentity a s.collectedData.dob s.collectedData.ssnLast4 with
      | false =>
        refine ⟨hc, rfl, rfl, ?_⟩
        rw [he]
        by_cases hge : s.attemptsIdentity + 1 ≥ cfg.maxIdentityAttempts
        · rw [heval.2.2.1 hY hV hge]
        · rw [heval.2.2.2 hY hV hge]
      | true =>
        rw [heval.2.1 hY hV] at hne
        exact absurd rfl hne
  · intro hc hY hV
    rw [step_at_confirm cfg today a s i hc]
    by_cases hge : s.attemptsIdentity + 1 ≥ cfg.maxIdentityAttempts
    · rw [heval.2.2.1 hY hV hge]
      exact ⟨rfl, fun _ => ⟨rfl, by simp⟩⟩
    · rw [heval.2.2.2 hY hV hge]
      exact ⟨rfl, fun hge2 => absurd hge2 hge⟩

/-- Witness for C4: with a single allowed attempt, a confirmed
mismatching pair at the confirmation node increments the counter and
terminates the call. -/
theorem identity_attempts_monotone_and_capped_witness :
    (step demoCfg1 demoToday demoApplicant demoWrong3 inpConfirm).attemptsIdentity =
      demoWrong3.attemptsIdentity + 1
    ∧ (step demoCfg1 demoToday demoApplicant demoWrong3 inpConfirm).currentNodeId =
      "IDENTITY_FAILURE_TERMINATION"
    ∧ demoWrong3.attemptsIdentity ≤
      (step demoCfg1 demoToday demoApplicant demoWrong3 inpConfirm).attemptsIdentity := by
  have h := identity_attempts_monotone_and_capped demoCfg1 demoToday demoApplicant
    demoWrong3 inpConfirm
  have h3 := h.2.2 (by decide) (by decide) (by decide)
  exact ⟨h3.1, (h3.2 (by decide)).1, h.1⟩

/-- Branch-by-branch evaluation of the discrepancy handler. -/
lemma handleTenureDiscrepancy_eval (cfg : Config) (a : ApplicantData)
    (s : AgentState) (i : Input) :
    (s.collectedData.employmentStatus = some "self_employed" →
      handleTenureDiscrepancy cfg a s i = { s with currentNodeId := "FINAL_CONFIRMATION" })
    ∧ (s.context.discrepancyShown = true →
      (handleTenureDiscrepancy cfg a s i).currentNodeId = "FINAL_CONFIRMATION")
    ∧ ((handleTenureDiscrepancy cfg a s i).currentNodeId = "FINAL_CONFIRMATION" ∨
       ((handleTenureDiscrepancy cfg a s i).currentNodeId = "TENURE_DISCREPANCY_CHECK" ∧
        s.context.discrepancyShown = false ∧
        (handleTenureDiscrepancy cfg a s i).context.discrepancyShown = true)) := by
  unfold handleTenureDiscrepancy
  dsimp only
  split_ifs with h1 h2 h3 h4 <;> simp_all

/-- Claim C7 (amended): the tenure-discrepancy handler stays to solicit
an explanation at most once per session — a step on the discrepancy
node either proceeds to final confirmation or stays exactly once while
setting the `discrepancyShown` flag, which no handler ever clears; the
check is skipped for self-employed callers; and once the flag is set
the handler proceeds to final confirmation whatever the explanation
says, so the check never blocks completion.  The rendered clarification
prompt itself is not at-most-once: `context.hasDiscrepancy` is never
cleared, so re-entering the node after a final-confirmation rejection
renders the clarification again, as the counterexample below shows. -/
theorem tenure_discrepancy_once_and_nonblocking (cfg : Config) (today : Date3) (a : ApplicantData)
    (s : AgentState) (i : Input) :
    (s.currentNodeId = "TENURE_DISCREPANCY_CHECK" →
      ((s.collectedData.employmentStatus = some "self_employed" →
          step cfg today a s i = { s with currentNodeId := "FINAL_CONFIRMATION" })
       ∧ (s.context.discrepancyShown = true →
          (step cfg today a s i).currentNodeId = "FINAL_CONFIRMATION")
       ∧ ((step cfg today a s i).currentNodeId = "FINAL_CONFIRMATION" ∨
          ((step cfg today a s i).currentNodeId = "TENURE_DISCREPANCY_CHECK" ∧
           s.context.discrepancyShown = false ∧
           (step cfg today a s i).context.discrepancyShown = true))))
    ∧ (s.context.discrepancyShown = true →
        (step cfg today a s i).context.discrepancyShown = true) := by
  constructor
  · intro hc
    rw [step_at_discrepancy cfg today a s i hc]
    exact handleTenureDiscrepancy_eval cfg a s i
  · intro hshown
    rcases step_eq_cases cfg today a s i with
      ⟨_, he⟩ | ⟨hc, he⟩ | ⟨hc, he⟩ | ⟨hc, he⟩ | ⟨hc, he⟩ | ⟨hc, he⟩ | ⟨hc, he⟩ |
      ⟨hc, he⟩ | ⟨hc, he⟩ | ⟨hc, he⟩ | ⟨hc, he⟩ | ⟨hc, he⟩ | ⟨hc, he⟩ | ⟨hc, he⟩ | ⟨hc, he⟩ <;>
      rw [he]
    all_goals first
      | exact hshown
      | (rw [(handleGreetingConfirmation_frame s i).2.2.1]; exact hshown)
      | (rw [(handleDobCollection_frame today s i).2.2.1]; exact hshown)
      | (rw [(handleSsnCollection_frame s i).2.2.1]; exact hshown)
      | (rw [(handleIdentityConfirmation_frame cfg a s i).1]; exact hshown)
      | (rw [(handleIdentityRetry_frame today s i).2.2.1]; exact hshown)
      | (rw [(handleAddressCollection_frame s i).2.2]; exact hshown)
      | (rw [(handleUnitCollection_frame s i).2.2.1]; exact hshown)
      | (rw [(handleEmailCollection_frame s i).2.2]; exact hshown)
      | (rw [(handleIncomeCollection_frame s i).2.2]; exact hshown)
      | (rw [(handleTenureCollection_frame s i).2.2]; exact hshown)
      | (rw [(handleFinalConfirmation_frame s i).2.2.1]; exact hshown)
      | (rcases (handleTenureDiscrepancy_frame cfg a s i).2.2.2 with hsame | htrue
         · rw [hsame]; exact hshown
         · exact htrue)

/-- Witness for C7: a self-employed state skips straight to final
confirmation, and a state whose clarification was already shown
proceeds to final confirmation with the flag still set. -/
theorem tenure_discrepancy_once_and_nonblocking_witness :
    step demoCfg demoToday demoApplicant demoSelfState ⟨"anything", Extraction.empty⟩ =
      { demoSelfState with currentNodeId := "FINAL_CONFIRMATION" }
    ∧ (step demoCfg demoToday demoApplicant demoDisc2State
        ⟨"no reason", Extraction.empty⟩).currentNodeId = "FINAL_CONFIRMATION"
    ∧ (step demoCfg demoToday demoApplicant demoDisc2State
        ⟨"no reason", Extraction.empty⟩).context.discrepancyShown = true := by
  refine ⟨((tenure_discrepancy_once_and_nonblocking demoCfg demoToday demoApplicant
      demoSelfState ⟨"anything", Extraction.empty⟩).1 rfl).1 rfl, ?_, ?_⟩
  · exact ((tenure_discrepancy_once_and_nonblocking demoCfg demoToday demoApplicant
      demoDisc2State ⟨"no reason", Extraction.empty⟩).1 (by decide)).2.1 (by decide)
  · exact (tenure_discrepancy_once_and_nonblocking demoCfg demoToday demoApplicant
      demoDisc2State ⟨"no reason", Extraction.empty⟩).2 (by decide)

/-- Claim C2: in every state reachable from the initial state, whenever
the current node is one of the post-identity nodes (address, unit,
email, income, tenure, discrepancy, final confirmation, completion) the
`identityVerified` flag is true — the flow graph admits no path into
the financial section that bypasses the identity gate. -/
theorem identity_gate_before_post_identity_nodes (cfg : Config) (today : Date3) (a : ApplicantData) (s : AgentState)
    (h : Reachable cfg today a s) (hm : s.currentNodeId ∈ postIdentityNodes) :
    s.identityVerified = true := by
  induction h with
  | init => exact absurd hm (by decide)
  | next i hr ih =>
    rename_i s0
    rcases step_eq_cases cfg today a s0 i with
      ⟨_, he⟩ | ⟨hc, he⟩ | ⟨hc, he⟩ | ⟨hc, he⟩ | ⟨hc, he⟩ | ⟨hc, he⟩ | ⟨hc, he⟩ |
      ⟨hc, he⟩ | ⟨hc, he⟩ | ⟨hc, he⟩ | ⟨hc, he⟩ | ⟨hc, he⟩ | ⟨hc, he⟩ | ⟨hc, he⟩ | ⟨hc, he⟩ <;>
      rw [he] at hm ⊢
    -- node not found: state unchanged
    · exact ih hm
    -- greeting: both targets are outside the post-identity set
    · rcases (handleGreetingConfirmation_frame s0 i).2.2.2 with ht | ht <;>
        rw [ht] at hm <;> exact absurd hm (by decide)
    -- DOB collection
    · rcases (handleDobCollection_frame today s0 i).2.2.2 with ht | ht <;>
        rw [ht] at hm <;> exact absurd hm (by decide)
    -- SSN collection
    · rcases (handleSsnCollection_frame s0 i).2.2.2 with ht | ht <;>
        rw [ht] at hm <;> exact absurd hm (by decide)
    -- identity confirmation: either the gate is set or the target is outside
    · rcases (handleIdentityConfirmation_frame cfg a s0 i).2 with ⟨hflag, _⟩ | ⟨hflag, hrest⟩
      · exact hflag
      · rcases hrest with ⟨_, ht⟩ | ⟨_, ht | ht⟩ <;>
          rw [ht] at hm <;> exact absurd hm (by decide)
    -- identity retry
    · rcases (handleIdentityRetry_frame today s0 i).2.2.2 with ht | ht | ht <;>
        rw [ht] at hm <;> exact absurd hm (by decide)
    -- failure termination: state unchanged
    · exact ih hm
    -- post-identity handlers: the flag was already set and is preserved
    · rw [(handleAddressCollection_frame s0 i).1]
      exact ih (by rw [hc]; decide)
    · rw [(handleUnitCollection_frame s0 i).1]
      exact ih (by rw [hc]; decide)
    · rw [(handleEmailCollection_frame s0 i).1]
      exact ih (by rw [hc]; decide)
    · rw [(handleIncomeCollection_frame s0 i).1]
      exact ih (by rw [hc]; decide)
    · rw [(handleTenureCollection_frame s0 i).1]
      exact ih (by rw [hc]; decide)
    · rw [(handleTenureDiscrepancy_frame cfg a s0 i).1]
      exact ih (by rw [hc]; decide)
    · rw [(handleFinalConfirmation_frame s0 i).1]
      exact ih (by rw [hc]; decide)
    · exact ih hm

/-- Witness for C2: the four-turn run that verifies the reference
applicant reaches the address-collection node with the gate set. -/
theorem identity_gate_before_post_identity_nodes_witness :
    demo4.identityVerified = true :=
  identity_gate_before_post_identity_nodes demoCfg demoToday demoApplicant demo4
    (Reachable.next inpConfirm (Reachable.next inpSsn
      (Reachable.next inpDob (Reachable.next inpGreet Reachable.init))))
    (by decide)

/-- Claim C3 (code bug): denying the greeting is a reachable transition
whose target, the incorrect-person termination id, is not a key of the
flow table — `currentNodeId` leaves the table, which the dispatcher
reports as a configuration error. -/
theorem incorrect_person_termination_missing_from_flow_table :
    Reachable demoCfg demoToday demoApplicant denyState
    ∧ denyState.currentNodeId = "INCORRECT_PERSON_TERMINATION"
    ∧ findNode denyState.currentNodeId = none
    ∧ "INCORRECT_PERSON_TERMINATION" ∉ nodeIds
    ∧ step demoCfg demoToday demoApplicant denyState denyInput = denyState := by
  refine ⟨Reachable.next denyInput Reachable.init, by decide, by decide, by decide, ?_⟩
  unfold step
  rw [(by decide : findNode denyState.currentNodeId = none)]

/-- Claim C9 (code bug): on the address node, extraction results whose
ZIP code fails `validateAddress` are stored anyway — the handler checks
only that the four components are non-empty and never runs the
validator. -/
theorem address_stored_without_validation :
    Reachable demoCfg demoToday demoApplicant badAddressState
    ∧ demo4.currentNodeId = "CONTACT_INFO_ADDRESS"
    ∧ badAddressState.collectedData.address =
        some ⟨"123 Main Street", "Denver", "Colorado", "ABCDE"⟩
    ∧ validateAddress ⟨"123 Main Street", "Denver", "Colorado", "ABCDE"⟩ = false
    ∧ badAddressState.currentNodeId = "CONTACT_INFO_UNIT" := by
  refine ⟨?_, by decide, by decide, by decide, by decide⟩
  exact Reachable.next badAddressInput (Reachable.next inpConfirm
    (Reachable.next inpSsn (Reachable.next inpDob
      (Reachable.next inpGreet Reachable.init))))

/-- A decimal digit character has code point between 48 and 57. -/
lemma isDigit_toNat_bounds (c : Char) (h : c.isDigit = true) :
    48 ≤ c.toNat ∧ c.toNat ≤ 57 := by
  simp [Char.isDigit] at h
  obtain ⟨h1, h2⟩ := h
  constructor
  · exact UInt32.le_toNat_of_le (by decide) h1
  · exact UInt32.toNat_le_of_le (by decide) h2

/-- `Nat.digitChar` below 10 is the character at code point `48 + k`. -/
lemma digitChar_ofNat_eq (k : Nat) (hk : k < 10) :
    Nat.digitChar k = Char.ofNat (48 + k) := by
  interval_cases k <;> decide

/-- Rendering the numeric value of a digit character gives the
character back. -/
lemma digitChar_dval (c : Char) (h : c.isDigit = true) :
    Nat.digitChar (dval c) = c ∧ dval c < 10 := by
  obtain ⟨h1, h2⟩ := isDigit_toNat_bounds c h
  have hlt : dval c < 10 := by unfold dval; omega
  have heq : 48 + dval c = c.toNat := by unfold dval; omega
  refine ⟨?_, hlt⟩
  rw [digitChar_ofNat_eq (dval c) hlt, heq, Char.ofNat_toNat]

/-- Numeric value of a rendered digit. -/
lemma dval_digitChar (k : Nat) (hk : k < 10) : dval (Nat.digitChar k) = k := by
  interval_cases k <;> decide

/-- A rendered digit is a digit character. -/
lemma isDigit_digitChar (k : Nat) (hk : k < 10) : (Nat.digitChar k).isDigit = true := by
  interval_cases k <;> decide

/-- No month is longer than 31 days. -/
lemma daysInMonth_le_31 (y m : Nat) : daysInMonth y m ≤ 31 := by
  unfold daysInMonth
  split_ifs <;> omega

/-- Claim C6 (amended): `validateDob` accepts exactly the `YYYY-MM-DD`
renderings of real calendar dates that are not after the current date
and whose calendar-year difference from the current year is at least
18.  The original claim asked for an age of at least 18 full years; the
source computes `getFullYear() - getFullYear()` and ignores month and
day, which the counterexample below exploits. -/
theorem validateDob_iff_year_difference (today : Date3) (s : String) :
    validateDob today s = true ↔ DobAccepted today s := by
  constructor
  · intro h
    unfold validateDob at h
    rcases hd : s.data with _ | ⟨y1, _ | ⟨y2, _ | ⟨y3, _ | ⟨y4, _ | ⟨h1c, _ | ⟨m1, _ | ⟨m2, _ | ⟨h2c, _ | ⟨d1, _ | ⟨d2, _ | ⟨zz, tt⟩⟩⟩⟩⟩⟩⟩⟩⟩⟩⟩ <;>
      rw [hd] at h <;> simp only [] at h
    all_goals try exact absurd h Bool.false_ne_true
    split_ifs at h with hfmt hreal hfut
    simp only [Bool.and_eq_true, beq_iff_eq] at hfmt
    obtain ⟨⟨⟨⟨⟨⟨⟨⟨⟨hy1, hy2⟩, hy3⟩, hy4⟩, hh1⟩, hm1⟩, hm2⟩, hh2⟩, hd1⟩, hd2⟩ := hfmt
    obtain ⟨ey1, ly1⟩ := digitChar_dval y1 hy1
    obtain ⟨ey2, ly2⟩ := digitChar_dval y2 hy2
    obtain ⟨ey3, ly3⟩ := digitChar_dval y3 hy3
    obtain ⟨ey4, ly4⟩ := digitChar_dval y4 hy4
    obtain ⟨em1, lm1⟩ := digitChar_dval m1 hm1
    obtain ⟨em2, lm2⟩ := digitChar_dval m2 hm2
    obtain ⟨ed1, ld1⟩ := digitChar_dval d1 hd1
    obtain ⟨ed2, ld2⟩ := digitChar_dval d2 hd2
    refine ⟨⟨dval y1 * 1000 + dval y2 * 100 + dval y3 * 10 + dval y4,
             dval m1 * 10 + dval m2, dval d1 * 10 + dval d2⟩, ?_,
            by show dval y1 * 1000 + dval y2 * 100 + dval y3 * 10 + dval y4 ≤ 9999; omega,
            hreal, by simpa using hfut, by simpa using h⟩
    have hs : s = String.mk s.data := rfl
    rw [hs, hd]
    unfold isoString pad4 pad2 digitOf
    refine congrArg String.mk ?_
    simp only [List.cons_append, List.nil_append]
    have q1 : (dval y1 * 1000 + dval y2 * 100 + dval y3 * 10 + dval y4) / 1000 % 10 = dval y1 := by omega
    have q2 : (dval y1 * 1000 + dval y2 * 100 + dval y3 * 10 + dval y4) / 100 % 10 = dval y2 := by omega
    have q3 : (dval y1 * 1000 + dval y2 * 100 + dval y3 * 10 + dval y4) / 10 % 10 = dval y3 := by omega
    have q4 : (dval y1 * 1000 + dval y2 * 100 + dval y3 * 10 + dval y4) % 10 = dval y4 := by omega
    have r1 : (dval m1 * 10 + dval m2) / 10 % 10 = dval m1 := by omega
    have r2 : (dval m1 * 10 + dval m2) % 10 = dval m2 := by omega
    have t1 : (dval d1 * 10 + dval d2) / 10 % 10 = dval d1 := by omega
    have t2 : (dval d1 * 10 + dval d2) % 10 = dval d2 := by omega
    rw [q1, q2, q3, q4, r1, r2, t1, t2, ey1, ey2, ey3, ey4, em1, em2, ed1, ed2, hh1, hh2]
  · rintro ⟨b, rfl, hy, hreal, hfut, hage⟩
    have hm12 : b.month ≤ 12 := by
      unfold isRealDate at hreal
      simp at hreal
      omega
    have hd31 : b.day ≤ 31 := by
      unfold isRealDate at hreal
      simp at hreal
      have := daysInMonth_le_31 b.year b.month
      omega
    unfold validateDob isoString pad4 pad2 digitOf
    simp only [List.cons_append, List.nil_append]
    have g1 := isDigit_digitChar (b.year / 1000 % 10) (Nat.mod_lt _ (by omega))
    have g2 := isDigit_digitChar (b.year / 100 % 10) (Nat.mod_lt _ (by omega))
    have g3 := isDigit_digitChar (b.year / 10 % 10) (Nat.mod_lt _ (by omega))
    have g4 := isDigit_digitChar (b.year % 10) (Nat.mod_lt _ (by omega))
    have g5 := isDigit_digitChar (b.month / 10 % 10) (Nat.mod_lt _ (by omega))
    have g6 := isDigit_digitChar (b.month % 10) (Nat.mod_lt _ (by omega))
    have g7 := isDigit_digitChar (b.day / 10 % 10) (Nat.mod_lt _ (by omega))
    have g8 := isDigit_digitChar (b.day % 10) (Nat.mod_lt _ (by omega))
    have v1 := dval_digitChar (b.year / 1000 % 10) (Nat.mod_lt _ (by omega))
    have v2 := dval_digitChar (b.year / 100 % 10) (Nat.mod_lt _ (by omega))
    have v3 := dval_digitChar (b.year / 10 % 10) (Nat.mod_lt _ (by omega))
    have v4 := dval_digitChar (b.year % 10) (Nat.mod_lt _ (by omega))
    have v5 := dval_digitChar (b.month / 10 % 10) (Nat.mod_lt _ (by omega))
    have v6 := dval_digitChar (b.month % 10) (Nat.mod_lt _ (by omega))
    have v7 := dval_digitChar (b.day / 10 % 10) (Nat.mod_lt _ (by omega))
    have v8 := dval_digitChar (b.day % 10) (Nat.mod_lt _ (by omega))
    simp only [g1, g2, g3, g4, g5, g6, g7, g8, v1, v2, v3, v4, v5, v6, v7, v8,
      Bool.and_eq_true, beq_self_eq_true, and_true, true_and]
    have hyv : b.year / 1000 % 10 * 1000 + b.year / 100 % 10 * 100 +
        b.year / 10 % 10 * 10 + b.year % 10 = b.year := by omega
    have hmv : b.month / 10 % 10 * 10 + b.month % 10 = b.month := by omega
    have hdv : b.day / 10 % 10 * 10 + b.day % 10 = b.day := by omega
    rw [hyv, hmv, hdv]
    have heta : (⟨b.year, b.month, b.day⟩ : Date3) = b := rfl
    rw [heta, hreal]
    simp only [if_true]
    rw [hfut]
    simpa using hage

/-- Counterexample for C6 as stated: on 2026-10-11, an applicant born
2008-12-31 is 17 full years old, yet `validateDob` accepts the date
because the bare year difference is 18. -/
theorem validateDob_accepts_seventeen_year_old :
    validateDob ⟨2026, 10, 11⟩ "2008-12-31" = true
    ∧ fullYearsAge ⟨2026, 10, 11⟩ ⟨2008, 12, 31⟩ < 18
    ∧ dateAfter ⟨2008, 12, 31⟩ ⟨2026, 10, 11⟩ = false := by
  refine ⟨by decide, ?_, by decide⟩
  unfold fullYearsAge
  norm_num

/-- Counterexample for C7 as stated: one session in which the
clarification prompt is surfaced twice.  A stated tenure of 8 months
against 36 on record surfaces the clarification at turn 10; after the
caller rejects the final summary and redoes the contact-info and
employment section, re-stating a tenure of 36 months that matches the
record exactly, the discrepancy node is re-entered at turn 17 with
`context.hasDiscrepancy` still set, so the clarification question
renders a second time — and with the stale stated tenure of 8. -/
theorem discrepancy_clarification_surfaced_twice :
    Reachable demoCfg demoToday demoApplicant discTurn17
    ∧ rendersDiscrepancyClarification discTurn9 = false
    ∧ rendersDiscrepancyClarification discTurn10 = true
    ∧ rendersDiscrepancyClarification discTurn11 = false
    ∧ rendersDiscrepancyClarification discTurn17 = true
    ∧ discTurn17.collectedData.jobTenure = some 36
    ∧ demoApplicant.application_job_tenure = some 36
    ∧ discTurn17.context.statedTenure = some 8 := by
  refine ⟨?_, by decide, by decide, by decide, by decide, by decide, by decide, by decide⟩
  exact Reachable.next discInpTenure36 (Reachable.next discInpIncome
    (Reachable.next discInpNoEmail (Reachable.next discInpNoUnit
    (Reachable.next discInpAddress (Reachable.next discInpReject
    (Reachable.next discInpNoIdea (Reachable.next discInpWhy
    (Reachable.next discInpTenure8 (Reachable.next discInpIncome
    (Reachable.next discInpNoEmail (Reachable.next discInpNoUnit
    (Reachable.next discInpAddress (Reachable.next inpConfirm
    (Reachable.next inpSsn (Reachable.next inpDob
    (Reachable.next inpGreet Reachable.init))))))))))))))))
